import Mathlib

/-!
Verification development for `src/data_monitor.py` (class `DataMonitor`).

The Python class couples a producer-side handle with a render worker
through a `multiprocessing.Queue`.  We give a shallow embedding of the
parts the specification talks about:

* the data handoff (`data` property getter/setter, lines 106-124) as a
  pure state transformer on a FIFO list plus a fallback slot;
* the lifecycle (`__init__`/`start`/`__del__`/`__exit__`, lines 26-90)
  as transformers of a record of the monitor's process/queue fields,
  with CPython `del` semantics made explicit via a reference count;
* the render tick (`animate`/`plot`/`apply_plt_kwargs`, lines 126-168)
  as a function producing the list of matplotlib calls a tick issues,
  with Python exceptions rendered as `Except`.
-/

namespace DataMonitor

/-- Python exceptions that the embedded code can raise. -/
inductive PyErr
  | attributeError
  | indexError
  | valueError
  deriving DecidableEq, Repr

/-! ## Data handoff: the `data` property (src/data_monitor.py lines 106-124)

State as seen by the property: `queue` is the FIFO content of
`self._data_queue` (head = oldest enqueued element, the one
`Queue.get` returns next) and `_data` is the stored fallback
`self._data`. -/

/-- The handoff state: FIFO queue contents plus the stored `self._data`. -/
structure QState (α : Type) where
  queue : List α
  _data : α
  deriving DecidableEq, Repr

variable {α : Type}

/-- Model of `multiprocessing.Queue.get(timeout=...)`: returns the front (FIFO)
element, or raises `queue.Empty` when nothing becomes available within the
timeout — rendered here as the queue list being empty during the wait
window. -/
def queueGet (q : List α) : Except Unit (α × List α) :=
  match q with
  | [] => .error ()
  | v :: rest => .ok (v, rest)

/-- The `data` property getter (lines 106-117):
`try: self._data = self._data_queue.get(timeout=self.update_rate)`
`except (TimeoutError, Empty): pass`
`return self._data`.
Returns the fetched (or fallback) value together with the new state. -/
def dataGet (s : QState α) : α × QState α :=
  match queueGet s.queue with
  | .error _ => (s._data, s)
  | .ok (v, rest) => (v, ⟨rest, v⟩)

/-- The `data` property setter (lines 119-124): `self._data_queue.put(value)`. -/
def dataSet (s : QState α) (v : α) : QState α :=
  ⟨s.queue ++ [v], s._data⟩

/-- Handoff state right after `start()`: fresh empty queue, `self._data`
still holding the constructor's initial data `d`. -/
def startState (d : α) : QState α :=
  ⟨[], d⟩

/-- A finite sequence of `set(value)` calls. -/
def runSets (s : QState α) (vs : List α) : QState α :=
  vs.foldl dataSet s

/-- A sequence of `n` successive `get()` calls; returns the list of
values the calls yield, in order, together with the final state. -/
def runGets : Nat → QState α → List α × QState α
  | 0, s => ([], s)
  | n + 1, s =>
    let p := dataGet s
    let q := runGets n p.snd
    (p.fst :: q.fst, q.snd)

theorem runSets_queue (q : List α) (d : α) (vs : List α) :
    runSets ⟨q, d⟩ vs = ⟨q ++ vs, d⟩ := by
  induction vs generalizing q with
  | nil => simp [runSets]
  | cons v vs ih =>
    simp only [runSets, List.foldl_cons] at *
    rw [show dataSet ⟨q, d⟩ v = ⟨q ++ [v], d⟩ from rfl, ih]
    simp

theorem runGets_take (vs rest : List α) (d : α) :
    ∀ n, n ≤ vs.length → (runGets n ⟨vs ++ rest, d⟩).fst = vs.take n := by
  induction vs generalizing d with
  | nil =>
    intro n hn
    have : n = 0 := Nat.le_zero.mp (by simpa using hn)
    subst this
    simp [runGets]
  | cons v vs ih =>
    intro n hn
    match n with
    | 0 => simp [runGets]
    | m + 1 =>
      simp only [runGets, dataGet, queueGet, List.cons_append]
      have := ih v m (Nat.le_of_succ_le_succ (by simpa using hn))
      simp [this, List.take]

/-! ## Claims C1-C4 -/

/-- Claim C1 (amended): on a tick's data fetch (the `data` getter as called by
`animate`), if a Sample is available within the wait window the getter
yields the **front of the FIFO queue** — the oldest not-yet-dequeued
Sample, not necessarily the most recently enqueued one; only when none is
available does it yield the previously held `self._data`. -/
theorem dataGet_front_or_held (s : QState α) :
    (s.queue = [] → dataGet s = (s._data, s)) ∧
    (∀ v rest, s.queue = v :: rest → dataGet s = (v, ⟨rest, v⟩)) := by
  constructor
  · intro h
    simp [dataGet, queueGet, h]
  · intro v rest h
    simp [dataGet, queueGet, h]

/-- Witness for `dataGet_front_or_held` at concrete states. -/
theorem dataGet_front_or_held_witness :
    dataGet (⟨[], 7⟩ : QState Nat) = (7, ⟨[], 7⟩) ∧
    dataGet (⟨[3, 4], 7⟩ : QState Nat) = (3, ⟨[4], 3⟩) :=
  ⟨(dataGet_front_or_held (⟨[], 7⟩ : QState Nat)).1 rfl,
   (dataGet_front_or_held (⟨[3, 4], 7⟩ : QState Nat)).2 3 [4] rfl⟩

/-- Claim C1 counterexample: with queue `[0, 1]` (so `1` is the most recently
enqueued Sample and a Sample is available within the wait window), the
getter yields `0`, the oldest enqueued Sample, not the most recent `1`. -/
theorem dataGet_not_newest :
    (dataGet (⟨[0, 1], 42⟩ : QState Nat)).fst = 0 ∧
    (⟨[0, 1], 42⟩ : QState Nat).queue.getLast? = some 1 ∧
    (0 : Nat) ≠ 1 := by
  refine ⟨rfl, rfl, by decide⟩

/-- Claim C2: the `data` getter attempts a bounded-timeout dequeue (`queueGet`);
when the dequeue raises `Empty`/`TimeoutError` (the `.error` case), the
exception is swallowed and the getter returns the stored `self._data`
with the state unchanged.  `dataGet`'s total type `α × QState α` embeds
that the timeout is never propagated to the caller. -/
theorem dataGet_swallows_timeout (s : QState α)
    (h : queueGet s.queue = .error ()) :
    dataGet s = (s._data, s) := by
  simp [dataGet, h]

/-- Witness for `dataGet_swallows_timeout`: an empty queue times out and
the getter falls back to the held value. -/
theorem dataGet_swallows_timeout_witness :
    dataGet (⟨[], 99⟩ : QState Nat) = (99, ⟨[], 99⟩) :=
  dataGet_swallows_timeout (⟨[], 99⟩ : QState Nat) rfl

/-- Claim C3: after a finite sequence of `set` calls `vs` from the post-`start`
state with initial data `d`, a `get` returns the initial data `d` (when
nothing was ever set) or one of the set values — never a value that was
never set — and successive `get`s drain the set values in FIFO order with
no reordering. -/
theorem get_after_sets (d : α) (vs : List α) :
    ((dataGet (runSets (startState d) vs)).fst = d ∨
      (dataGet (runSets (startState d) vs)).fst ∈ vs) ∧
    (∀ n, n ≤ vs.length →
      (runGets n (runSets (startState d) vs)).fst = vs.take n) := by
  have hq : runSets (startState d) vs = ⟨vs, d⟩ := by
    simpa using runSets_queue [] d vs
  constructor
  · rw [hq]
    cases vs with
    | nil => left; rfl
    | cons v vs => right; simp [dataGet, queueGet]
  · intro n hn
    rw [hq]
    simpa using runGets_take vs [] d n hn

/-- Witness for `get_after_sets`: after `set 1; set 2; set 3` on initial
data `5`, the first `get` yields a set value and two `get`s yield
`[1, 2]` in FIFO order. -/
theorem get_after_sets_witness :
    ((dataGet (runSets (startState 5) [1, 2, 3])).fst = 5 ∨
      (dataGet (runSets (startState 5) [1, 2, 3])).fst ∈ [1, 2, 3]) ∧
    (runGets 2 (runSets (startState (5 : Nat)) [1, 2, 3])).fst = [1, 2] := by
  have h := get_after_sets (5 : Nat) [1, 2, 3]
  exact ⟨h.1, by simpa using h.2 2 (by decide)⟩

/-- Claim C4 counterexample: with two Samples `[0, 1]` queued and no `set` in
between, the first `get` returns `0` and the second returns `1` — the
reads are not idempotent on an unchanged queue holding two items. -/
theorem second_get_differs :
    (dataGet (⟨[0, 1], 42⟩ : QState Nat)).fst = 0 ∧
    (dataGet (dataGet (⟨[0, 1], 42⟩ : QState Nat)).snd).fst = 1 ∧
    (0 : Nat) ≠ 1 := by
  refine ⟨rfl, rfl, by decide⟩

/-- Claim C4 (amended): if at the first `get` the queue holds **at most one**
unread Sample and no `set` intervenes, the second `get` returns the same
value as the first (stale-fallback idempotence). -/
theorem get_idempotent_of_le_one (s : QState α)
    (h : s.queue.length ≤ 1) :
    (dataGet (dataGet s).snd).fst = (dataGet s).fst := by
  match s with
  | ⟨[], d⟩ => rfl
  | ⟨[a], d⟩ => rfl
  | ⟨a :: b :: rest, d⟩ => simp at h

/-- Witness for `get_idempotent_of_le_one` at a one-element queue. -/
theorem get_idempotent_of_le_one_witness :
    (dataGet (dataGet (⟨[8], 3⟩ : QState Nat)).snd).fst =
      (dataGet (⟨[8], 3⟩ : QState Nat)).fst :=
  get_idempotent_of_le_one (⟨[8], 3⟩ : QState Nat) (by decide)

/-! ## Lifecycle: `__init__` / `start` / `__del__` / `__exit__`
(src/data_monitor.py lines 26-90)

The monitor's multiprocess fields.  `_data_queue` is `None` before
`start()` and a queue afterwards (`queueClosed` records a `close()`
call on it); `_show_process` is `None` before `start()` and afterwards
`some aliveFlag` for the spawned worker `Process`. -/

/-- The monitor fields relevant to lifecycle and to the runtime
read/write interface. -/
structure Monitor (α : Type) where
  _data : Option α
  _data_queue : Option (List α)
  _show_process : Option Bool
  queueClosed : Bool
  deriving DecidableEq, Repr

/-- Embeds `__init__` (lines 26-68): stores the initial `data` argument
(default `None`), leaves `self._show_process = None` and
`self._data_queue = None`. -/
def monitorInit (d : Option α) : Monitor α :=
  ⟨d, none, none, false⟩

/-- Embeds `start` (lines 86-90): `self._data_queue = Queue()` and
`self._show_process = Process(...); self._show_process.start()` —
a fresh empty queue and a live worker process. -/
def start (m : Monitor α) : Monitor α :=
  { m with _data_queue := some [], _show_process := some true }

/-- Embeds `__del__` (lines 78-84):
`if self._data_queue is not None: self._data_queue.close()`
`if self._show_process is not None: self._show_process.terminate(); self._show_process.join()`.
Both cleanup actions are guarded by `None` checks, so `__del__` is total. -/
def monitorDel (m : Monitor α) : Monitor α :=
  let m1 := if m._data_queue.isSome then { m with queueClosed := true } else m
  if m1._show_process.isSome then { m1 with _show_process := some false } else m1

/-- Embeds `__exit__` (lines 75-76): its whole body is `del self`.  The CPython
`del` statement unbinds the local name `self` and decrements the object's
reference count; `__del__` runs only if that count reaches zero.
`otherRefs` counts the references to the monitor other than the `self`
parameter — in `with DataMonitor(...) as dm:` the binding `dm` keeps it
at least 1 throughout the `__exit__` call. -/
def monitorExit (otherRefs : Nat) (m : Monitor α) : Monitor α :=
  if otherRefs = 0 then monitorDel m else m

/-- Embeds `__enter__` (lines 70-73): calls `start` and returns `self`. -/
def monitorEnter (m : Monitor α) : Monitor α :=
  start m

/-- Whether the worker process spawned by `start` is still alive. -/
def workerAlive (m : Monitor α) : Bool :=
  m._show_process = some true

/-- The `data` getter (lines 106-117) on the full monitor state.  When
`self._data_queue` is `None`, `None.get(...)` raises `AttributeError`,
which the `except (TimeoutError, Empty)` clause does not catch, so it
propagates. -/
def monitorDataGet (m : Monitor α) : Except PyErr (Option α × Monitor α) :=
  match m._data_queue with
  | none => .error .attributeError
  | some q =>
    match queueGet q with
    | .error _ => .ok (m._data, m)
    | .ok (v, rest) =>
      .ok (some v, { m with _data := some v, _data_queue := some rest })

/-- The `data` setter (lines 119-124) on the full monitor state:
`self._data_queue.put(value)` raises `AttributeError` when the queue
slot is still `None`. -/
def monitorDataSet (m : Monitor α) (v : α) : Except PyErr (Monitor α) :=
  match m._data_queue with
  | none => .error .attributeError
  | some q => .ok { m with _data_queue := some (q ++ [v]) }

/-! ## Claims C5 and C9 -/

/-- Claim C5 evidence: enter the scope and exit immediately without ever
calling `set`.  Because `__exit__` is just `del self` and the
`with ... as dm` binding still references the monitor (`otherRefs = 1`),
`__del__` does not run, the worker process is still alive after the exit
and the queue was never closed — the code does not implement the
guaranteed teardown the claim states.  (`monitorDel`, by contrast, would
kill the worker, which shows the `None`-guards are not the obstacle.) -/
theorem exit_leaves_worker_alive :
    workerAlive (monitorExit 1 (monitorEnter (monitorInit (none : Option Nat)))) = true ∧
    (monitorExit 1 (monitorEnter (monitorInit (none : Option Nat)))).queueClosed = false ∧
    workerAlive (monitorDel (monitorEnter (monitorInit (none : Option Nat)))) = false := by
  refine ⟨rfl, rfl, rfl⟩

/-- Claim C9: before `start()` the queue slot `self._data_queue` is `None`,
so the `data` getter and setter both raise `AttributeError` (attribute
access on `None`, not caught by the getter's `except (TimeoutError,
Empty)`), while `__del__` is safe: both of its actions are guarded by
`is not None` checks, so destruction before `start()` changes nothing. -/
theorem unstarted_monitor_raises (d : Option α) (v : α) :
    (monitorInit d)._data_queue = none ∧
    monitorDataGet (monitorInit d) = .error .attributeError ∧
    monitorDataSet (monitorInit d) v = .error .attributeError ∧
    monitorDel (monitorInit d) = monitorInit d := by
  refine ⟨rfl, rfl, rfl, rfl⟩

/-! ## Render tick: `animate` / `plot` / `apply_plt_kwargs`
(src/data_monitor.py lines 126-168)

A tick is embedded as the list of matplotlib calls it issues, in order.
Python literals occurring as arguments are numbers or strings; a Sample
entry is a numpy scalar or a 1-d vector (we model regular, non-ragged
data, which is all the claims use). -/

/-- A Python literal appearing in channel kwargs or `plt_kwargs` args. -/
inductive PyLit
  | int (n : Int)
  | str (s : String)
  deriving DecidableEq, Repr

/-- A keyword-argument dictionary (insertion ordered, as in Python). -/
abbrev Kwargs := List (String × PyLit)

/-- One entry of a Sample: a scalar or a 1-d series. -/
inductive NpArr
  | scal (v : Int)
  | vec (vs : List Int)
  deriving DecidableEq, Repr

/-- Whether a Sample entry is a scalar. -/
def NpArr.isScal : NpArr → Bool
  | .scal _ => true
  | .vec _ => false

/-- The value of a scalar entry (irrelevant default on vectors). -/
def NpArr.scalVal : NpArr → Int
  | .scal v => v
  | .vec _ => 0

/-- One matplotlib call issued during a render tick. -/
inductive RenderEvent
  | cla
  | plotCall (x : NpArr) (y : NpArr) (kwargs : Kwargs)
  | pltAttr (attr : String) (args : List PyLit) (kwargs : Kwargs)
  | legend
  deriving DecidableEq, Repr

/-- Lines 144-147: after `x, *y = data`, the check `if np.ndim(y) == 1:
y = [y]`.  The star-unpacked list `y` has numpy dimension 1 exactly when
every remaining entry is a scalar; in that case the whole tail is
re-wrapped as a single series. -/
def seriesOf (ytail : List NpArr) : List NpArr :=
  if ytail.all NpArr.isScal then [NpArr.vec (ytail.map NpArr.scalVal)] else ytail

/-- Line 150: `c = {} if self.channels is None else self.channels[i]`;
`self.channels[i]` raises `IndexError` when `i` is out of range. -/
def channelAt (channels : Option (List Kwargs)) (i : Nat) : Except PyErr Kwargs :=
  match channels with
  | none => .ok []
  | some cs =>
    match cs[i]? with
    | some c => .ok c
    | none => .error .indexError

/-- Lines 149-151: `for i in range(len(y)): c = {} if self.channels is
None else self.channels[i]; plt.plot(x, y[i], **c)`. -/
def plotLoop (channels : Option (List Kwargs)) (x : NpArr) :
    Nat → List NpArr → Except PyErr (List RenderEvent)
  | _, [] => .ok []
  | i, y :: rest =>
    match channelAt channels i with
    | .error e => .error e
    | .ok c =>
      match plotLoop channels x (i + 1) rest with
      | .error e => .error e
      | .ok tailEvs => .ok (RenderEvent.plotCall x y c :: tailEvs)

/-- Embeds `plot` (lines 136-151).  Empty `data` makes the unpacking
`x, *y = data` raise `ValueError`. -/
def plot (channels : Option (List Kwargs)) (data : List NpArr) :
    Except PyErr (List RenderEvent) :=
  match data with
  | [] => .error .valueError
  | x :: ytail => plotLoop channels x 0 (seriesOf ytail)

/-- The constructor arguments `animate` and `apply_plt_kwargs` read. -/
structure RenderConfig where
  channels : Option (List Kwargs)
  clear_axes : Bool
  plt_kwargs : List (String × (List PyLit × Kwargs))
  deriving DecidableEq, Repr

/-- Whether a channel dict declares a `'label'` key. -/
def hasLabel (c : Kwargs) : Bool :=
  c.any (fun kv => kv.fst == "label")

/-- Line 167: `self.channels is not None and any('label' in c for c in
self.channels)`. -/
def legendCond (cfg : RenderConfig) : Bool :=
  match cfg.channels with
  | none => false
  | some cs => cs.any hasLabel

/-- Lines 164-165: `for attribute, (args, kwargs) in
self.plt_kwargs.items(): getattr(plt, attribute)(*args, **kwargs)`. -/
def pltKwargsLoop : List (String × (List PyLit × Kwargs)) → List RenderEvent
  | [] => []
  | (attr, (args, kwargs)) :: rest =>
    RenderEvent.pltAttr attr args kwargs :: pltKwargsLoop rest

/-- Embeds `apply_plt_kwargs` (lines 153-168): apply each directive in order,
then call `plt.legend()` when some channel declares a label. -/
def apply_plt_kwargs (cfg : RenderConfig) : List RenderEvent :=
  pltKwargsLoop cfg.plt_kwargs ++
    (if legendCond cfg then [RenderEvent.legend] else [])

/-- Embeds `animate` (lines 126-134): `data = self.data`; `if self.clear_axes:
plt.cla()`; `self.plot(data)`; `self.apply_plt_kwargs()`.  Returns the
tick's call trace and the handoff state after the fetch. -/
def animate (cfg : RenderConfig) (s : QState (List NpArr)) :
    Except PyErr (List RenderEvent × QState (List NpArr)) :=
  let p := dataGet s
  match plot cfg.channels p.fst with
  | .error e => .error e
  | .ok plotEvs =>
    .ok ((if cfg.clear_axes then [RenderEvent.cla] else []) ++
      plotEvs ++ apply_plt_kwargs cfg, p.snd)

theorem plotLoop_shape (channels : Option (List Kwargs)) (x : NpArr)
    (ys : List NpArr) :
    ∀ (i : Nat) (evs : List RenderEvent),
      plotLoop channels x i ys = .ok evs →
      ∀ e ∈ evs, ∃ xx yy c, e = RenderEvent.plotCall xx yy c := by
  induction ys with
  | nil =>
    intro i evs h e he
    simp only [plotLoop] at h
    cases h
    simp at he
  | cons y rest ih =>
    intro i evs h e he
    simp only [plotLoop] at h
    cases hc : channelAt channels i with
    | error e0 => rw [hc] at h; cases h
    | ok c =>
      rw [hc] at h
      cases ht : plotLoop channels x (i + 1) rest with
      | error e0 => rw [ht] at h; cases h
      | ok tailEvs =>
        rw [ht] at h
        cases h
        rcases List.mem_cons.mp he with h1 | h2
        · exact ⟨x, y, c, h1⟩
        · exact ih (i + 1) tailEvs ht e h2

theorem plot_shape (channels : Option (List Kwargs)) (data : List NpArr)
    (evs : List RenderEvent) (h : plot channels data = .ok evs) :
    ∀ e ∈ evs, ∃ xx yy c, e = RenderEvent.plotCall xx yy c := by
  cases data with
  | nil => cases h
  | cons x ytail => exact plotLoop_shape channels x (seriesOf ytail) 0 evs h

theorem pltKwargsLoop_map (l : List (String × (List PyLit × Kwargs))) :
    pltKwargsLoop l =
      l.map (fun p => RenderEvent.pltAttr p.fst p.snd.fst p.snd.snd) := by
  induction l with
  | nil => rfl
  | cons p rest ih =>
    obtain ⟨attr, args, kwargs⟩ := p
    simp [pltKwargsLoop, ih]

theorem plotLoop_none (x : NpArr) (ys : List NpArr) :
    ∀ i : Nat, plotLoop none x i ys =
      .ok (ys.map fun y => RenderEvent.plotCall x y []) := by
  induction ys with
  | nil => intro i; rfl
  | cons y rest ih =>
    intro i
    simp only [plotLoop, channelAt, ih (i + 1), List.map]

/-! ## Claims C6, C7, C8, C10 -/

/-- Claim C6: a successful render tick issues, in order: (the Sample fetched
first via `dataGet`,) the `cla` clear exactly when `clear_axes` is set,
the plot calls for the fetched Sample's y-channels, the `plt_kwargs`
directives, and the `legend` call exactly when `channels` is not `None`
and some channel declares a `'label'`. -/
theorem animate_tick_structure (cfg : RenderConfig) (s : QState (List NpArr))
    (evs : List RenderEvent) (s' : QState (List NpArr))
    (h : animate cfg s = .ok (evs, s')) :
    ∃ plotEvs, plot cfg.channels (dataGet s).fst = .ok plotEvs ∧
      (∀ e ∈ plotEvs, ∃ xx yy c, e = RenderEvent.plotCall xx yy c) ∧
      evs = (if cfg.clear_axes then [RenderEvent.cla] else []) ++ plotEvs ++
        pltKwargsLoop cfg.plt_kwargs ++
        (if legendCond cfg then [RenderEvent.legend] else []) ∧
      (RenderEvent.cla ∈ evs ↔ cfg.clear_axes = true) ∧
      (RenderEvent.legend ∈ evs ↔ legendCond cfg = true) ∧
      s' = (dataGet s).snd := by
  simp only [animate] at h
  cases hp : plot cfg.channels (dataGet s).fst with
  | error e0 => rw [hp] at h; cases h
  | ok plotEvs =>
    rw [hp] at h
    cases h
    refine ⟨plotEvs, rfl, plot_shape cfg.channels (dataGet s).fst plotEvs hp,
      by simp [apply_plt_kwargs], ?_, ?_, rfl⟩
    · constructor
      · intro hmem
        rcases List.mem_append.mp hmem with hmem1 | hc
        · rcases List.mem_append.mp hmem1 with ha | hpe
          · cases hca : cfg.clear_axes with
            | true => rfl
            | false => rw [hca] at ha; simp at ha
          · obtain ⟨xx, yy, c, hxyc⟩ :=
              plot_shape cfg.channels (dataGet s).fst plotEvs hp _ hpe
            cases hxyc
        · simp only [apply_plt_kwargs] at hc
          rcases List.mem_append.mp hc with hb | hl
          · rw [pltKwargsLoop_map] at hb
            obtain ⟨p, _, hps⟩ := List.mem_map.mp hb
            cases hps
          · cases hlc : legendCond cfg with
            | true => rw [hlc] at hl; simp at hl
            | false => rw [hlc] at hl; simp at hl
      · intro hca
        rw [hca]
        simp
    · constructor
      · intro hmem
        rcases List.mem_append.mp hmem with hmem1 | hc
        · rcases List.mem_append.mp hmem1 with ha | hpe
          · cases hca : cfg.clear_axes with
            | true => rw [hca] at ha; simp at ha
            | false => rw [hca] at ha; simp at ha
          · obtain ⟨xx, yy, c, hxyc⟩ :=
              plot_shape cfg.channels (dataGet s).fst plotEvs hp _ hpe
            cases hxyc
        · simp only [apply_plt_kwargs] at hc
          rcases List.mem_append.mp hc with hb | hl
          · rw [pltKwargsLoop_map] at hb
            obtain ⟨p, _, hps⟩ := List.mem_map.mp hb
            cases hps
          · cases hlc : legendCond cfg with
            | true => rfl
            | false => rw [hlc] at hl; simp at hl
      · intro hlc
        simp [apply_plt_kwargs, hlc]

/-- A concrete Sample: x-row `[0, 1]` and two y-rows. -/
def sampleW : List NpArr :=
  [NpArr.vec [0, 1], NpArr.vec [1, 2], NpArr.vec [3, 4]]

/-- A concrete configuration: two channels (one labelled), clearing on,
one `xlim` directive. -/
def cfgW : RenderConfig :=
  ⟨some [[("label", PyLit.str "c1")], [("color", PyLit.str "tab:orange")]],
   true,
   [("xlim", ([PyLit.int 0, PyLit.int 10], []))]⟩

/-- A concrete handoff state whose queue holds `sampleW`. -/
def sW : QState (List NpArr) :=
  ⟨[sampleW], []⟩

/-- The trace of the tick `animate cfgW sW`. -/
def evsW : List RenderEvent :=
  [RenderEvent.cla,
   RenderEvent.plotCall (NpArr.vec [0, 1]) (NpArr.vec [1, 2]) [("label", PyLit.str "c1")],
   RenderEvent.plotCall (NpArr.vec [0, 1]) (NpArr.vec [3, 4]) [("color", PyLit.str "tab:orange")],
   RenderEvent.pltAttr "xlim" [PyLit.int 0, PyLit.int 10] [],
   RenderEvent.legend]

/-- Witness for `animate_tick_structure` on the concrete tick
`animate cfgW sW`. -/
theorem animate_tick_structure_witness :
    ∃ plotEvs, plot cfgW.channels (dataGet sW).fst = .ok plotEvs ∧
      (∀ e ∈ plotEvs, ∃ xx yy c, e = RenderEvent.plotCall xx yy c) ∧
      evsW = (if cfgW.clear_axes then [RenderEvent.cla] else []) ++ plotEvs ++
        pltKwargsLoop cfgW.plt_kwargs ++
        (if legendCond cfgW then [RenderEvent.legend] else []) ∧
      (RenderEvent.cla ∈ evsW ↔ cfgW.clear_axes = true) ∧
      (RenderEvent.legend ∈ evsW ↔ legendCond cfgW = true) ∧
      (⟨[], sampleW⟩ : QState (List NpArr)) = (dataGet sW).snd :=
  animate_tick_structure cfgW sW evsW ⟨[], sampleW⟩ (by
    simp [animate, cfgW, sW, evsW, sampleW, dataGet, queueGet, plot,
      seriesOf, plotLoop, channelAt, apply_plt_kwargs, pltKwargsLoop,
      legendCond, hasLabel, NpArr.isScal])

/-- Claim C7: when the channel descriptor list is omitted (`channels = None`),
a tick's plot step succeeds on any Sample, plotting every y-series
against `x` with an empty kwargs dict, and the legend condition is
false, so `plt.legend()` is skipped. -/
theorem plot_channels_none (cfg : RenderConfig) (x : NpArr)
    (ytail : List NpArr) (h : cfg.channels = none) :
    plot cfg.channels (x :: ytail) =
      .ok ((seriesOf ytail).map fun y => RenderEvent.plotCall x y []) ∧
    legendCond cfg = false := by
  rw [h]
  exact ⟨plotLoop_none x (seriesOf ytail) 0, by simp [legendCond, h]⟩

/-- Witness for `plot_channels_none` on a two-y-series Sample. -/
theorem plot_channels_none_witness :
    plot (⟨none, true, []⟩ : RenderConfig).channels
        (NpArr.vec [0, 1] :: [NpArr.vec [1, 2], NpArr.vec [3, 4]]) =
      .ok ((seriesOf [NpArr.vec [1, 2], NpArr.vec [3, 4]]).map
        fun y => RenderEvent.plotCall (NpArr.vec [0, 1]) y []) ∧
    legendCond ⟨none, true, []⟩ = false :=
  plot_channels_none ⟨none, true, []⟩ (NpArr.vec [0, 1])
    [NpArr.vec [1, 2], NpArr.vec [3, 4]] rfl

/-- Claim C8: `apply_plt_kwargs` calls, for each directive entry
`(attribute, (args, kwargs))` in order, the `matplotlib.pyplot`
attribute of that name with exactly those positional and keyword
arguments; the directive `xlim: ((0, 10), {})` alone produces exactly
the call `plt.xlim(0, 10)`. -/
theorem apply_plt_kwargs_exact (cfg : RenderConfig) :
    pltKwargsLoop cfg.plt_kwargs =
      cfg.plt_kwargs.map
        (fun p => RenderEvent.pltAttr p.fst p.snd.fst p.snd.snd) ∧
    (∀ attr args kwargs, (attr, (args, kwargs)) ∈ cfg.plt_kwargs →
      RenderEvent.pltAttr attr args kwargs ∈ apply_plt_kwargs cfg) ∧
    apply_plt_kwargs ⟨none, true, [("xlim", ([PyLit.int 0, PyLit.int 10], []))]⟩ =
      [RenderEvent.pltAttr "xlim" [PyLit.int 0, PyLit.int 10] []] := by
  refine ⟨pltKwargsLoop_map cfg.plt_kwargs, ?_, rfl⟩
  intro attr args kwargs hmem
  apply List.mem_append.mpr
  left
  rw [pltKwargsLoop_map]
  exact List.mem_map.mpr ⟨(attr, (args, kwargs)), hmem, rfl⟩

/-- Witness for `apply_plt_kwargs_exact`: the `xlim` directive
produces its `plt.xlim(0, 10)` call. -/
theorem apply_plt_kwargs_exact_witness :
    RenderEvent.pltAttr "xlim" [PyLit.int 0, PyLit.int 10] [] ∈
      apply_plt_kwargs ⟨none, true, [("xlim", ([PyLit.int 0, PyLit.int 10], []))]⟩ :=
  (apply_plt_kwargs_exact
      ⟨none, true, [("xlim", ([PyLit.int 0, PyLit.int 10], []))]⟩).2.1
    "xlim" [PyLit.int 0, PyLit.int 10] [] (List.mem_singleton.mpr rfl)

/-- Claim C10: for a Sample `[x, y]` whose y part is a single 1-d series, the
star-unpacking leaves the singleton series list `[y]` (the `np.ndim == 1`
re-wrap does not fire, since `[y]` has dimension 2), and the plot step
draws exactly one series of `x` against `y` — the same calls as for a
Sample explicitly carrying one y-row — both without channels and with a
channel descriptor present. -/
theorem plot_single_y (x : NpArr) (ys : List Int) (c : Kwargs)
    (cs : List Kwargs) :
    seriesOf [NpArr.vec ys] = [NpArr.vec ys] ∧
    plot none [x, NpArr.vec ys] =
      .ok [RenderEvent.plotCall x (NpArr.vec ys) []] ∧
    plot (some (c :: cs)) [x, NpArr.vec ys] =
      .ok [RenderEvent.plotCall x (NpArr.vec ys) c] := by
  refine ⟨rfl, rfl, ?_⟩
  simp [plot, seriesOf, plotLoop, channelAt, NpArr.isScal]
